import Mathlib

/-!
Verification of the bounded note cache and pagination controller of the
attio-cli terminal note browser (`src/tui.rs`, `src/cache.rs`,
`src/models/note.rs`), as a shallow embedding in Lean 4.

Conventions of the embedding:
- Rust `String` becomes Lean `String`; `String::capacity()` is modelled as
  the UTF-8 byte length of the contents (the minimal capacity — the strings
  in this program come from deserialization, where capacity equals length).
- `std::mem::size_of::<Note>()` is 8 `String` headers of 24 bytes each on a
  64-bit target, i.e. 192 bytes.
- `u32`/`usize` arithmetic becomes `Nat`; `saturating_sub` is `Nat` subtraction
  (which already saturates at 0).  No quantity in the verified code paths can
  reach 2^32, so wrap-around is not modelled.
- The HTTP client is an oracle `Nat → Nat → Except String (List Note)`
  (arguments: limit, offset); a `.error` is a transport error.
- Event handlers additionally return the list of `(limit, offset)` remote
  fetches they issued, so "never triggers a fetch" is a statement about the
  returned log, not merely oracle-independence.
-/

/-- `NoteId` from `src/models/note.rs`: composite (workspace, note) key. -/
structure NoteId where
  workspace_id : String
  note_id : String
deriving DecidableEq, Repr

/-- `Note` from `src/models/note.rs`. -/
structure Note where
  id : NoteId
  parent_object : String
  parent_record_id : String
  title : String
  content_plaintext : String
  content_markdown : String
  created_at : String
deriving DecidableEq, Repr

/-- `std::mem::size_of::<Note>()` on a 64-bit target: 8 String headers. -/
def note_struct_size : Nat := 192

/-- Model of Rust `String::capacity()`: UTF-8 byte length of the contents. -/
def str_capacity (s : String) : Nat := s.utf8ByteSize

/-- `estimate_note_size` from `src/cache.rs`: struct size plus the capacity
of every string field. -/
def estimate_note_size (note : Note) : Nat :=
  note_struct_size
    + str_capacity note.id.workspace_id
    + str_capacity note.id.note_id
    + str_capacity note.parent_object
    + str_capacity note.parent_record_id
    + str_capacity note.title
    + str_capacity note.content_plaintext
    + str_capacity note.content_markdown
    + str_capacity note.created_at

/-- Result of one `add_to_cache` call: the mutated cache and size, plus the
returned `(added, limit_reached)` pair of `src/tui.rs` lines 102-130. -/
structure AddResult where
  cache : List Note
  cacheSize : Nat
  added : Nat
  limitReached : Bool
deriving DecidableEq, Repr

/-- The `add_to_cache` closure of `src/tui.rs` (lines 102-130): for each
candidate in order, skip it if its `note_id` is already cached; otherwise
append it when the estimated size fits the byte budget, and break out of the
whole loop with `limit_reached = true` the first time it does not fit. -/
def add_to_cache (cache : List Note) (cache_size : Nat) :
    List Note → Nat → AddResult
  | [], _ => ⟨cache, cache_size, 0, false⟩
  | note :: rest, limit =>
    if cache.any (fun n => n.id.note_id == note.id.note_id) then
      add_to_cache cache cache_size rest limit
    else
      let note_size := estimate_note_size note
      if cache_size + note_size ≤ limit then
        let r := add_to_cache (cache ++ [note]) (cache_size + note_size) rest limit
        ⟨r.cache, r.cacheSize, r.added + 1, r.limitReached⟩
      else
        ⟨cache, cache_size, 0, true⟩

/-- A session-long sequence of `add_to_cache` calls starting from the empty
cache, as performed by `run_app` (initial fetch, Right-key fetches, bulk
fetches all call `add_to_cache` on the same pair of locals). -/
def insert_batches (batches : List (List Note)) (limit : Nat) :
    List Note × Nat :=
  batches.foldl
    (fun acc b =>
      let r := add_to_cache acc.1 acc.2 b limit
      (r.cache, r.cacheSize))
    ([], 0)

/-- `InputMode` from `src/tui.rs` lines 22-26. -/
inductive InputMode where
  | Normal
  | Search
deriving DecidableEq, Repr

/-- The mutable locals of `run_app` (`src/tui.rs` lines 73-98) that the event
handlers read and write. -/
structure AppState where
  offset : Nat
  allNotes : List Note
  cacheSize : Nat
  cacheLimitBytes : Nat
  errorMsg : Option String
  totalFetched : Nat
  inputMode : InputMode
  searchQuery : String
  searchOffset : Nat
  limit : Nat
  isFetchingAll : Bool
deriving DecidableEq, Repr

/-- The `calculate_limit` closure (`src/tui.rs` lines 86-96):
`height.saturating_sub(7).clamp(1, 50)` as a function of the terminal
height in rows. -/
def calculate_limit (height : Nat) : Nat :=
  min (max (height - 7) 1) 50

/-- Rust `str::contains` (substring test) on character lists. -/
def chars_contain_sub : List Char → List Char → Bool
  | [], pat => pat.isEmpty
  | c :: rest, pat => List.isPrefixOf pat (c :: rest) || chars_contain_sub rest pat

/-- Rust `haystack.contains(&pattern)` substring test on strings. -/
def str_contains_sub (hay pat : String) : Bool :=
  chars_contain_sub hay.data pat.data

/-- The search predicate of `draw_screen` and the Right-key handler
(`src/tui.rs` lines 168-171 and 539-545): case-insensitive substring match
on title or plain-text content. -/
def note_matches (queryLower : String) (note : Note) : Bool :=
  str_contains_sub note.title.toLower queryLower
    || str_contains_sub note.content_plaintext.toLower queryLower

/-- Rust slice_notes `l[s..e]` (defined for `s ≤ e ≤ l.length`, where Rust does
not panic; outside that range this model clamps). -/
def slice_notes (l : List Note) (s e : Nat) : List Note :=
  (l.drop s).take (e - s)

/-- The view-model computation of `draw_screen` (`src/tui.rs` lines
162-191): the notes to display, the 1-based page number, and the number of
search matches (`None` in normal mode). -/
def display_notes (allNotes : List Note) (offset searchOffset limit : Nat)
    (searchQuery : String) : List Note × Nat × Option Nat :=
  if searchQuery ≠ "" then
    let queryLower := searchQuery.toLower
    let filtered := allNotes.filter (note_matches queryLower)
    let total := filtered.length
    let page := searchOffset / max limit 1 + 1
    let endIdx := min (searchOffset + limit) filtered.length
    (slice_notes filtered searchOffset endIdx, page, some total)
  else
    let endIdx := min (offset + limit) allNotes.length
    (slice_notes allNotes offset endIdx, offset / max limit 1 + 1, none)

/-- Why the bulk-fetch loop of the Ctrl+A handler stopped. -/
inductive BulkStop where
  | budget
  | endOfData
  | transport
deriving DecidableEq, Repr

/-- Result of the bulk-fetch loop: final cache and size, final error
message, why the loop stopped (`none` = ran out of fuel), and the log of
`(limit, offset)` fetches issued, in order. -/
structure BulkResult where
  cache : List Note
  cacheSize : Nat
  errorMsg : Option String
  stop : Option BulkStop
  fetchLog : List (Nat × Nat)
deriving DecidableEq, Repr

/-- The Ctrl+A bulk-fetch loop of `run_app` (`src/tui.rs` lines 461-524),
fuel-indexed: fetch pages of 50 starting at offset 0, insert each page with
`add_to_cache`, stop on budget (`limit_reached`), on a short page
(end of data), or on a transport error. -/
def bulk_fetch_loop (client : Nat → Nat → Except String (List Note))
    (cacheLimit : Nat) :
    Nat → List Note → Nat → Option String → Nat → BulkResult
  | 0, cache, size, err, _ => ⟨cache, size, err, none, []⟩
  | fuel + 1, cache, size, err, fetchOffset =>
    match client 50 fetchOffset with
    | .error e =>
      ⟨cache, size, some ("Error fetching all: " ++ e), some .transport,
        [(50, fetchOffset)]⟩
    | .ok resp =>
      let fetched := resp.length
      let r := add_to_cache cache size resp cacheLimit
      if r.limitReached then
        ⟨r.cache, r.cacheSize, some "Cache limit reached", some .budget,
          [(50, fetchOffset)]⟩
      else if fetched < 50 then
        ⟨r.cache, r.cacheSize, err, some .endOfData, [(50, fetchOffset)]⟩
      else
        let rest := bulk_fetch_loop client cacheLimit fuel r.cache r.cacheSize
          err (fetchOffset + 50)
        ⟨rest.cache, rest.cacheSize, rest.errorMsg, rest.stop,
          (50, fetchOffset) :: rest.fetchLog⟩

/-- Key events the embedding distinguishes (the arms of the
`Event::Key` match in `run_app`, `src/tui.rs` lines 446-621). -/
inductive KeyEv where
  | charKey (c : Char) (ctrl : Bool)
  | escKey
  | backspaceKey
  | rightKey
  | leftKey
  | otherKey
deriving DecidableEq, Repr

/-- The Right-key handler (`src/tui.rs` lines 533-606).  Returns the next
state (`none` never occurs here) and the fetch log. -/
def right_handler (client : Nat → Nat → Except String (List Note))
    (st : AppState) : Option AppState × List (Nat × Nat) :=
  if st.searchQuery ≠ "" then
    let queryLower := st.searchQuery.toLower
    let filteredCount := (st.allNotes.filter (note_matches queryLower)).length
    if st.searchOffset + st.limit < filteredCount then
      (some { st with searchOffset := st.searchOffset + st.limit }, [])
    else
      (some st, [])
  else if st.inputMode = InputMode.Normal then
    let nextOffset := st.offset + st.limit
    if nextOffset < st.allNotes.length then
      (some { st with offset := nextOffset }, [])
    else if st.totalFetched = st.limit then
      match client st.limit nextOffset with
      | .ok resp =>
        let r := add_to_cache st.allNotes st.cacheSize resp st.cacheLimitBytes
        let st1 := { st with totalFetched := resp.length,
                             allNotes := r.cache, cacheSize := r.cacheSize }
        if nextOffset < r.cache.length then
          (some { st1 with offset := nextOffset, errorMsg := none },
            [(st.limit, nextOffset)])
        else if r.limitReached then
          (some { st1 with
              errorMsg := some "Cache limit reached. Not caching new notes." },
            [(st.limit, nextOffset)])
        else
          (some st1, [(st.limit, nextOffset)])
      | .error e =>
        (some { st with errorMsg := some e }, [(st.limit, nextOffset)])
    else
      (some st, [])
  else
    (some st, [])

/-- The Left-key handler (`src/tui.rs` lines 607-619). -/
def left_handler (st : AppState) : Option AppState × List (Nat × Nat) :=
  if st.searchQuery ≠ "" then
    if 0 < st.searchOffset then
      (some { st with searchOffset := st.searchOffset - st.limit }, [])
    else
      (some st, [])
  else if st.inputMode = InputMode.Normal ∧ 0 < st.offset then
    (some { st with offset := st.offset - st.limit }, [])
  else
    (some st, [])

/-- The `Event::Key` dispatch of `run_app` (`src/tui.rs` lines 446-621),
with the match arms in source order.  Returns `none` when the arm returns
from `run_app` (quit), otherwise the next state, plus the fetch log.
`fuel` bounds the Ctrl+A inner loop. -/
def handle_key (client : Nat → Nat → Except String (List Note)) (fuel : Nat)
    (k : KeyEv) (st : AppState) : Option AppState × List (Nat × Nat) :=
  match k with
  | .charKey c ctrl =>
    if c = 'q' ∧ st.inputMode = InputMode.Normal then
      (none, [])
    else if c = '/' ∧ st.inputMode = InputMode.Normal then
      (some { st with inputMode := InputMode.Search, searchOffset := 0 }, [])
    else if c = 'a' ∧ st.inputMode = InputMode.Normal ∧ ctrl then
      let r := bulk_fetch_loop client st.cacheLimitBytes fuel st.allNotes
        st.cacheSize st.errorMsg 0
      (some { st with allNotes := r.cache, cacheSize := r.cacheSize,
                      errorMsg := r.errorMsg, isFetchingAll := false },
        r.fetchLog)
    else if st.inputMode = InputMode.Search then
      (some { st with searchQuery := st.searchQuery.push c,
                      searchOffset := 0 }, [])
    else
      (some st, [])
  | .escKey =>
    if st.inputMode = InputMode.Search then
      (some { st with inputMode := InputMode.Normal, searchQuery := "",
                      searchOffset := 0 }, [])
    else
      (none, [])
  | .backspaceKey =>
    if st.inputMode = InputMode.Search then
      (some { st with searchQuery := st.searchQuery.dropRight 1,
                      searchOffset := 0 }, [])
    else
      (some st, [])
  | .rightKey => right_handler client st
  | .leftKey => left_handler st
  | .otherKey => (some st, [])

/-- Events read by the interaction loop (`src/tui.rs` lines 441-623). -/
inductive TuiEvent where
  | resize (height : Nat)
  | key (k : KeyEv)
deriving DecidableEq, Repr

/-- One dispatch step of the interaction loop (`src/tui.rs` lines 441-623):
a resize recomputes the page limit only, a key goes through `handle_key`. -/
def handle_event (client : Nat → Nat → Except String (List Note))
    (fuel : Nat) (ev : TuiEvent) (st : AppState) :
    Option AppState × List (Nat × Nat) :=
  match ev with
  | .resize height => (some { st with limit := calculate_limit height }, [])
  | .key k => handle_key client fuel k st

-- Sanity checks of the embedding on concrete data.
example :
    estimate_note_size ⟨⟨"w", "n1"⟩, "", "", "", "", "", ""⟩ = 195 := by decide

example :
    (add_to_cache [] 0 [⟨⟨"", "a"⟩, "", "", "", "", "", ""⟩,
      ⟨⟨"", "a"⟩, "", "", "", "", "", ""⟩] 1000).added = 1 := by decide

example :
    (add_to_cache [] 0 [⟨⟨"", "a"⟩, "", "", "", "", "", ""⟩] 10).limitReached
      = true := by decide

/-! ## Helper lemmas about `add_to_cache` -/

/-- A candidate whose `note_id` is already cached is skipped entirely:
the call behaves as if the candidate were absent. -/
theorem add_to_cache_dup_cons (cache : List Note) (size : Nat) (note : Note)
    (rest : List Note) (limit : Nat)
    (hdup : cache.any (fun n => n.id.note_id == note.id.note_id) = true) :
    add_to_cache cache size (note :: rest) limit =
      add_to_cache cache size rest limit := by
  simp [add_to_cache, hdup]

/-- `add_to_cache` never grows the running size past the byte budget. -/
theorem add_to_cache_size_le (notes : List Note) :
    ∀ cache size limit, size ≤ limit →
      (add_to_cache cache size notes limit).cacheSize ≤ limit := by
  induction notes with
  | nil => intro cache size limit h; simpa [add_to_cache] using h
  | cons note rest ih =>
    intro cache size limit h
    by_cases hdup : cache.any (fun n => n.id.note_id == note.id.note_id) = true
    · rw [add_to_cache_dup_cons cache size note rest limit hdup]
      exact ih cache size limit h
    · simp only [add_to_cache, hdup, if_false, Bool.false_eq_true]
      by_cases hfit : size + estimate_note_size note ≤ limit
      · simpa [hfit] using
          ih (cache ++ [note]) (size + estimate_note_size note) limit hfit
      · simpa [hfit] using h

/-- Folding batches through `add_to_cache` keeps the size within budget. -/
theorem insert_batches_acc_le (batches : List (List Note)) (limit : Nat) :
    ∀ init : List Note × Nat, init.2 ≤ limit →
      (batches.foldl
        (fun acc b =>
          let r := add_to_cache acc.1 acc.2 b limit
          (r.cache, r.cacheSize)) init).2 ≤ limit := by
  induction batches with
  | nil => intro init h; simpa using h
  | cons b rest ih =>
    intro init h
    exact ih _ (add_to_cache_size_le b init.1 init.2 limit h)

/-! ## Claims -/

/-- C1: for every sequence of `add_to_cache` (insert_many) calls starting
from the empty store, the running byte total never exceeds the configured
byte budget — a candidate is appended and counted only when the current
total plus its estimated size fits, so `total_bytes ≤ budget_bytes` after
every operation. -/
theorem cache_total_le_budget :
    (∀ cache size notes limit, size ≤ limit →
      (add_to_cache cache size notes limit).cacheSize ≤ limit)
    ∧ ∀ batches limit, (insert_batches batches limit).2 ≤ limit := by
  constructor
  · intro cache size notes limit h
    exact add_to_cache_size_le notes cache size limit h
  · intro batches limit
    exact insert_batches_acc_le batches limit ([], 0) (Nat.zero_le _)

/-- Witness for C1: a concrete insert under a concrete budget stays within
that budget. -/
theorem cache_total_le_budget_witness :
    (0 : Nat) ≤ 1000
    ∧ (add_to_cache [] 0 [⟨⟨"w", "n1"⟩, "", "", "", "", "", ""⟩]
        1000).cacheSize ≤ 1000 :=
  ⟨by decide,
    cache_total_le_budget.1 [] 0 [⟨⟨"w", "n1"⟩, "", "", "", "", "", ""⟩]
      1000 (by decide)⟩

/-- C10: the duplicate check precedes the budget check, so a batch made
only of already-cached `note_id`s returns `(added = 0, budget_reached =
false)` and leaves cache and byte total unchanged — even at or past the
budget a duplicates-only batch never reports `budget_reached`. -/
theorem duplicates_only_batch_no_budget (batch : List Note) :
    ∀ cache size limit,
      (∀ note ∈ batch,
        cache.any (fun n => n.id.note_id == note.id.note_id) = true) →
      add_to_cache cache size batch limit = ⟨cache, size, 0, false⟩ := by
  induction batch with
  | nil => intro cache size limit _; rfl
  | cons note rest ih =>
    intro cache size limit h
    rw [add_to_cache_dup_cons cache size note rest limit
      (h note (List.mem_cons_self note rest))]
    exact ih cache size limit (fun n hn => h n (List.mem_cons_of_mem _ hn))

/-- Witness for C10: a duplicates-only batch into a cache already exactly
at its budget reports no budget hit and changes nothing. -/
theorem duplicates_only_batch_no_budget_witness :
    (∀ note ∈ [(⟨⟨"w2", "n1"⟩, "", "", "", "x", "y", ""⟩ : Note)],
      [(⟨⟨"w", "n1"⟩, "", "", "", "", "", ""⟩ : Note)].any
        (fun n => n.id.note_id == note.id.note_id) = true)
    ∧ add_to_cache [⟨⟨"w", "n1"⟩, "", "", "", "", "", ""⟩] 195
        [⟨⟨"w2", "n1"⟩, "", "", "", "x", "y", ""⟩] 195 =
      ⟨[⟨⟨"w", "n1"⟩, "", "", "", "", "", ""⟩], 195, 0, false⟩ :=
  ⟨by decide,
    duplicates_only_batch_no_budget
      [⟨⟨"w2", "n1"⟩, "", "", "", "x", "y", ""⟩]
      [⟨⟨"w", "n1"⟩, "", "", "", "", "", ""⟩] 195 195 (by decide)⟩

/-- An all-ASCII string of `n` bytes, used to build notes of an exact
estimated size. -/
def mk_content (n : Nat) : String := String.mk (List.replicate n 'a')

/-- The modelled capacity of `mk_content n` is exactly `n` bytes. -/
theorem mk_content_capacity : ∀ n, (mk_content n).utf8ByteSize = n := by
  intro n
  induction n with
  | zero => rfl
  | succ k ih =>
    simp only [mk_content, List.replicate_succ, String.utf8ByteSize_mk,
      String.utf8Len_cons] at *
    rw [ih]
    have h1 : 'a'.utf8Size = 1 := by decide
    rw [h1]

/-- The 10MB candidate of the C2 scenario. -/
def c2_note_a : Note :=
  ⟨⟨"", "A"⟩, "", "", "", mk_content (10485760 - 193), "", ""⟩

/-- The 5MB candidate of the C2 scenario. -/
def c2_note_b : Note :=
  ⟨⟨"", "B"⟩, "", "", "", mk_content (5242880 - 193), "", ""⟩

/-- Shape of the size estimate for a note whose only non-empty fields are
the note-scope id and the plain-text content. -/
theorem estimate_note_only_content (nid c : String) :
    estimate_note_size ⟨⟨"", nid⟩, "", "", "", c, "", ""⟩ =
      192 + 0 + str_capacity nid + 0 + 0 + 0 + str_capacity c + 0 + 0 := rfl

/-- `c2_note_a` is estimated at exactly 10MB. -/
theorem c2_size_a : estimate_note_size c2_note_a = 10485760 := by
  rw [show c2_note_a =
    (⟨⟨"", "A"⟩, "", "", "", mk_content (10485760 - 193), "", ""⟩ : Note)
    from rfl]
  rw [estimate_note_only_content]
  rw [show str_capacity (mk_content (10485760 - 193)) = 10485760 - 193 from
    mk_content_capacity (10485760 - 193)]
  rw [show str_capacity "A" = 1 from rfl]

/-- `c2_note_b` is estimated at exactly 5MB. -/
theorem c2_size_b : estimate_note_size c2_note_b = 5242880 := by
  rw [show c2_note_b =
    (⟨⟨"", "B"⟩, "", "", "", mk_content (5242880 - 193), "", ""⟩ : Note)
    from rfl]
  rw [estimate_note_only_content]
  rw [show str_capacity (mk_content (5242880 - 193)) = 5242880 - 193 from
    mk_content_capacity (5242880 - 193)]
  rw [show str_capacity "B" = 1 from rfl]

/-- The branch of `add_to_cache` that admits a fresh, fitting candidate. -/
theorem add_to_cache_fit_cons (cache : List Note) (size : Nat) (note : Note)
    (rest : List Note) (limit : Nat)
    (hdup : cache.any (fun n => n.id.note_id == note.id.note_id) = false)
    (hfit : size + estimate_note_size note ≤ limit) :
    add_to_cache cache size (note :: rest) limit =
      ⟨(add_to_cache (cache ++ [note]) (size + estimate_note_size note)
          rest limit).cache,
       (add_to_cache (cache ++ [note]) (size + estimate_note_size note)
          rest limit).cacheSize,
       (add_to_cache (cache ++ [note]) (size + estimate_note_size note)
          rest limit).added + 1,
       (add_to_cache (cache ++ [note]) (size + estimate_note_size note)
          rest limit).limitReached⟩ := by
  simp [add_to_cache, hdup, hfit]

/-- C2: `add_to_cache` (insert_many) is order-sensitive and short-circuits
on budget — the first non-duplicate candidate that would push the total
past the budget stops all remaining processing and reports
`budget_reached = true`; in particular `[A(10MB), B(5MB)]` into a 12MB
budget with 0 used gives `added = 1` (A only) and `budget_reached = true`,
and B is never considered even though it alone would fit. -/
theorem insert_many_short_circuit :
    (∀ cache size note rest limit,
      cache.any (fun n => n.id.note_id == note.id.note_id) = false →
      limit < size + estimate_note_size note →
      add_to_cache cache size (note :: rest) limit = ⟨cache, size, 0, true⟩)
    ∧ add_to_cache [] 0 [c2_note_a, c2_note_b] (12 * 1024 * 1024) =
        ⟨[c2_note_a], 10485760, 1, true⟩ := by
  have hover : ∀ cache size note rest limit,
      cache.any (fun n => n.id.note_id == note.id.note_id) = false →
      limit < size + estimate_note_size note →
      add_to_cache cache size (note :: rest) limit = ⟨cache, size, 0, true⟩ := by
    intro cache size note rest limit hdup hov
    simp [add_to_cache, hdup, Nat.not_le_of_lt hov]
  refine ⟨hover, ?_⟩
  have hdup2 : [c2_note_a].any
      (fun n => n.id.note_id == c2_note_b.id.note_id) = false := rfl
  have hstep2 :
      add_to_cache [c2_note_a] 10485760 [c2_note_b] (12 * 1024 * 1024) =
        ⟨[c2_note_a], 10485760, 0, true⟩ :=
    hover [c2_note_a] 10485760 c2_note_b [] (12 * 1024 * 1024) hdup2
      (by rw [c2_size_b]; norm_num)
  have hdup1 : ([] : List Note).any
      (fun n => n.id.note_id == c2_note_a.id.note_id) = false := rfl
  have hfit : (0 : Nat) + estimate_note_size c2_note_a ≤ 12 * 1024 * 1024 := by
    rw [c2_size_a]; norm_num
  rw [add_to_cache_fit_cons [] 0 c2_note_a [c2_note_b] (12 * 1024 * 1024)
    hdup1 hfit]
  rw [show ([] : List Note) ++ [c2_note_a] = [c2_note_a] from rfl]
  rw [show (0 : Nat) + estimate_note_size c2_note_a = 10485760 from by
    rw [c2_size_a]]
  rw [hstep2]

/-- Witness for C2: the short-circuit equation at a concrete small input
whose size exceeds a concrete small budget. -/
theorem insert_many_short_circuit_witness :
    ([] : List Note).any
      (fun n => n.id.note_id ==
        (⟨⟨"w", "n1"⟩, "", "", "", "", "", ""⟩ : Note).id.note_id) = false
    ∧ (10 : Nat) <
        0 + estimate_note_size ⟨⟨"w", "n1"⟩, "", "", "", "", "", ""⟩
    ∧ add_to_cache [] 0
        [⟨⟨"w", "n1"⟩, "", "", "", "", "", ""⟩,
         ⟨⟨"w", "n2"⟩, "", "", "", "", "", ""⟩] 10 =
      ⟨[], 0, 0, true⟩ :=
  ⟨by decide, by decide,
    insert_many_short_circuit.1 [] 0 ⟨⟨"w", "n1"⟩, "", "", "", "", "", ""⟩
      [⟨⟨"w", "n2"⟩, "", "", "", "", "", ""⟩] 10 (by decide) (by decide)⟩

/-- Notes for the C3 overlap scenario: two pages sharing `note_id` "n2". -/
def c3_page1 : List Note :=
  [⟨⟨"w", "n1"⟩, "", "", "t1", "c1", "", ""⟩,
   ⟨⟨"w", "n2"⟩, "", "", "t2", "c2", "", ""⟩]

/-- Second page of the C3 scenario; its first note repeats id "n2". -/
def c3_page2 : List Note :=
  [⟨⟨"w", "n2"⟩, "", "", "t2bis", "c2bis", "", ""⟩,
   ⟨⟨"w", "n3"⟩, "", "", "t3", "c3", "", ""⟩]

/-- C3: inserting a candidate whose `note_id` already equals a cached
note's id is a no-op for that candidate — skipped, not counted as added,
`len` and `total_bytes` unchanged by it; consequently two insert batches
sharing one overlapping note id leave exactly one copy of that note. -/
theorem duplicate_insert_noop :
    (∀ cache size note rest limit,
      cache.any (fun n => n.id.note_id == note.id.note_id) = true →
      add_to_cache cache size (note :: rest) limit =
        add_to_cache cache size rest limit)
    ∧ (insert_batches [c3_page1, c3_page2] 1048576).1.countP
        (fun n => n.id.note_id == "n2") = 1
    ∧ (insert_batches [c3_page1, c3_page2] 1048576).1.length = 3 :=
  ⟨fun cache size note rest limit hdup =>
      add_to_cache_dup_cons cache size note rest limit hdup,
    by decide, by decide⟩

/-- A minimal note with a given note-scope id, for fetch scenarios. -/
def mk_note (nid : String) : Note := ⟨⟨"", nid⟩, "", "", "", "", "", ""⟩

/-- A page of `n` distinct notes with ids `off, off+1, …`. -/
def scenario_page (off n : Nat) : List Note :=
  (List.range n).map (fun k => mk_note (Nat.repr (off + k)))

/-- A remote source with 130 notes: full pages of 50 at offsets 0 and 50,
then a short page of 30 at offset 100. -/
def scenario_client (_limit off : Nat) : Except String (List Note) :=
  if off = 0 then .ok (scenario_page 0 50)
  else if off = 50 then .ok (scenario_page 50 50)
  else if off = 100 then .ok (scenario_page 100 30)
  else .ok []

/-- A remote source that fails with a transport error on its second page. -/
def err_client (_limit off : Nat) : Except String (List Note) :=
  if off = 0 then .ok (scenario_page 0 50) else .error "connection reset"

/-- The 130-note bulk fetch under a 1MB budget. -/
def scenario_run : BulkResult :=
  bulk_fetch_loop scenario_client 1048576 10 [] 0 none 0

/-- The bulk fetch against the failing source, under a 1MB budget. -/
def err_run : BulkResult :=
  bulk_fetch_loop err_client 1048576 10 [] 0 none 0

/-- The 130-note bulk fetch under a 500-byte budget (each note estimates
to at least 193 bytes, so the third insert of the first page hits it). -/
def budget_run : BulkResult :=
  bulk_fetch_loop scenario_client 500 10 [] 0 none 0

/-- Every fetch the bulk loop issues requests a page of 50, and the cursor
advances by exactly 50 each iteration: the log is
`[(50, off), (50, off+50), (50, off+100), …]`. -/
theorem bulk_fetch_log_offsets (client : Nat → Nat → Except String (List Note))
    (cacheLimit : Nat) :
    ∀ fuel cache size err off,
      (bulk_fetch_loop client cacheLimit fuel cache size err off).fetchLog =
        (List.range' off
          (bulk_fetch_loop client cacheLimit fuel cache size err
            off).fetchLog.length 50).map (fun o => (50, o)) := by
  intro fuel
  induction fuel with
  | zero => intro cache size err off; rfl
  | succ n ih =>
    intro cache size err off
    simp only [bulk_fetch_loop]
    cases hc : client 50 off with
    | error e => simp [List.range'_succ]
    | ok resp =>
      by_cases hlr : (add_to_cache cache size resp cacheLimit).limitReached
      · simp [hlr, List.range'_succ]
      · by_cases hf : resp.length < 50
        · simp [hlr, hf, List.range'_succ]
        · simp only [hlr, hf, if_false, Bool.false_eq_true, if_true,
            List.length_cons, List.range'_succ, List.map_cons]
          exact congrArg _
            (ih (add_to_cache cache size resp cacheLimit).cache
              (add_to_cache cache size resp cacheLimit).cacheSize err
              (off + 50))

set_option maxRecDepth 100000

/-- C4: the Ctrl+A bulk-fetch loop stops on exactly the first of budget
reached (non-fatal "Cache limit reached" status, fetched notes retained),
a page shorter than the fixed request size 50 (end of data), or a
transport error (non-fatal status, partial progress retained), advancing
its cursor by 50 each iteration; for pages of length 50, 50, 30 it issues
exactly 3 fetches and the store holds 130 notes. -/
theorem bulk_fetch_termination :
    (scenario_run.cache.length = 130
      ∧ scenario_run.stop = some BulkStop.endOfData
      ∧ scenario_run.fetchLog = [(50, 0), (50, 50), (50, 100)]
      ∧ scenario_run.errorMsg = none)
    ∧ (err_run.cache.length = 50
      ∧ err_run.stop = some BulkStop.transport
      ∧ err_run.fetchLog = [(50, 0), (50, 50)]
      ∧ err_run.errorMsg = some "Error fetching all: connection reset")
    ∧ (budget_run.cache.length = 2
      ∧ budget_run.stop = some BulkStop.budget
      ∧ budget_run.fetchLog = [(50, 0)]
      ∧ budget_run.errorMsg = some "Cache limit reached")
    ∧ (∀ client cacheLimit fuel cache size err off,
      (bulk_fetch_loop client cacheLimit fuel cache size err off).fetchLog =
        (List.range' off
          (bulk_fetch_loop client cacheLimit fuel cache size err
            off).fetchLog.length 50).map (fun o => (50, o))) := by
  refine ⟨⟨?_, ?_, ?_, ?_⟩, ⟨?_, ?_, ?_, ?_⟩, ⟨?_, ?_, ?_, ?_⟩,
    fun client cacheLimit fuel cache size err off =>
      bulk_fetch_log_offsets client cacheLimit fuel cache size err off⟩
    <;> decide

/-- Witness for C3: the skip equation at a concrete duplicate. -/
theorem duplicate_insert_noop_witness :
    [(⟨⟨"w", "n1"⟩, "", "", "", "", "", ""⟩ : Note)].any
      (fun n => n.id.note_id ==
        (⟨⟨"w9", "n1"⟩, "", "", "a", "b", "c", "d"⟩ : Note).id.note_id) = true
    ∧ add_to_cache [⟨⟨"w", "n1"⟩, "", "", "", "", "", ""⟩] 195
        [⟨⟨"w9", "n1"⟩, "", "", "a", "b", "c", "d"⟩] 1048576 =
      add_to_cache [⟨⟨"w", "n1"⟩, "", "", "", "", "", ""⟩] 195 [] 1048576 :=
  ⟨by decide,
    duplicate_insert_noop.1 [⟨⟨"w", "n1"⟩, "", "", "", "", "", ""⟩] 195
      ⟨⟨"w9", "n1"⟩, "", "", "a", "b", "c", "d"⟩ [] 1048576 (by decide)⟩

/-- The cached note of the C5 counterexample (estimated at 193 bytes). -/
def c5_cached_note : Note := mk_note "a"

/-- The fetched note of the C5 counterexample (193 bytes: it does not fit
the 7 bytes of budget headroom left by `c5_cached_note`). -/
def c5_new_note : Note := mk_note "b"

/-- A remote source for the C5 counterexample. -/
def c5_client (_limit _off : Nat) : Except String (List Note) :=
  .ok [c5_new_note]

/-- The state of the C5 counterexample: one cached note, budget 200 bytes,
a full previous page, ready to advance past the cache. -/
def c5_state : AppState :=
  { offset := 0, allNotes := [c5_cached_note], cacheSize := 193,
    cacheLimitBytes := 200, errorMsg := none, totalFetched := 1,
    inputMode := InputMode.Normal, searchQuery := "", searchOffset := 0,
    limit := 1, isFetchingAll := false }

/-- Counterexample to C5: in a successful advance fetch where the new data
does not extend the store past `offset + limit` (the insert hit the byte
budget), the offset stays — but an error IS surfaced ("Cache limit
reached. Not caching new notes."), refuting "no error is surfaced". -/
theorem advance_no_error_counterexample :
    ((handle_key c5_client 0 KeyEv.rightKey c5_state).1.map AppState.offset
      = some c5_state.offset)
    ∧ ¬ ((handle_key c5_client 0 KeyEv.rightKey c5_state).1.map
          AppState.errorMsg = some none) := by
  refine ⟨?_, ?_⟩ <;> decide

/-- C5 (amended): when the Right-key advance triggers a remote fetch which
succeeds, the offset advance is committed (and the error cleared) exactly
when the fetched data extends the store past `offset + limit`; otherwise
the offset stays, and a "Cache limit reached" status is surfaced when the
insert hit the byte budget, while no new error is surfaced otherwise. -/
theorem advance_fetch_success_cases
    (client : Nat → Nat → Except String (List Note)) (fuel : Nat)
    (st : AppState) (resp : List Note)
    (hq : st.searchQuery = "") (hm : st.inputMode = InputMode.Normal)
    (hnc : ¬ st.offset + st.limit < st.allNotes.length)
    (htf : st.totalFetched = st.limit)
    (hcl : client st.limit (st.offset + st.limit) = Except.ok resp) :
    ((handle_key client fuel KeyEv.rightKey st).1.map AppState.offset) =
      some (if st.offset + st.limit <
            (add_to_cache st.allNotes st.cacheSize resp
              st.cacheLimitBytes).cache.length
          then st.offset + st.limit else st.offset)
    ∧ ((handle_key client fuel KeyEv.rightKey st).1.map AppState.errorMsg) =
      some (if st.offset + st.limit <
            (add_to_cache st.allNotes st.cacheSize resp
              st.cacheLimitBytes).cache.length
          then none
          else if (add_to_cache st.allNotes st.cacheSize resp
              st.cacheLimitBytes).limitReached
          then some "Cache limit reached. Not caching new notes."
          else st.errorMsg) := by
  have h1 : handle_key client fuel KeyEv.rightKey st = right_handler client st :=
    rfl
  rw [h1]
  unfold right_handler
  rw [if_neg (by rw [hq]; simp), if_pos hm, if_neg hnc, if_pos htf, hcl]
  by_cases hx : st.offset + st.limit <
      (add_to_cache st.allNotes st.cacheSize resp st.cacheLimitBytes).cache.length
  · simp [hx]
  · by_cases hr : (add_to_cache st.allNotes st.cacheSize resp
        st.cacheLimitBytes).limitReached
    · simp [hx, hr]
    · simp [hx, hr]

/-- Witness for C5 (amended), in the commit case: the cache grows past
`offset + limit`, so the offset advances and the error clears. -/
theorem advance_fetch_success_cases_witness :
    ((handle_key (fun _ _ => Except.ok [mk_note "b"]) 0 KeyEv.rightKey
        { offset := 0, allNotes := [mk_note "a"], cacheSize := 193,
          cacheLimitBytes := 1000, errorMsg := some "old",
          totalFetched := 1, inputMode := InputMode.Normal,
          searchQuery := "", searchOffset := 0, limit := 1,
          isFetchingAll := false }).1.map AppState.offset) =
      some (if 0 + 1 <
            (add_to_cache [mk_note "a"] 193 [mk_note "b"] 1000).cache.length
          then 0 + 1 else 0)
    ∧ ((handle_key (fun _ _ => Except.ok [mk_note "b"]) 0 KeyEv.rightKey
        { offset := 0, allNotes := [mk_note "a"], cacheSize := 193,
          cacheLimitBytes := 1000, errorMsg := some "old",
          totalFetched := 1, inputMode := InputMode.Normal,
          searchQuery := "", searchOffset := 0, limit := 1,
          isFetchingAll := false }).1.map AppState.errorMsg) =
      some (if 0 + 1 <
            (add_to_cache [mk_note "a"] 193 [mk_note "b"] 1000).cache.length
          then none
          else if (add_to_cache [mk_note "a"] 193 [mk_note "b"]
              1000).limitReached
          then some "Cache limit reached. Not caching new notes."
          else some "old") :=
  advance_fetch_success_cases (fun _ _ => Except.ok [mk_note "b"]) 0
    { offset := 0, allNotes := [mk_note "a"], cacheSize := 193,
      cacheLimitBytes := 1000, errorMsg := some "old", totalFetched := 1,
      inputMode := InputMode.Normal, searchQuery := "", searchOffset := 0,
      limit := 1, isFetchingAll := false }
    [mk_note "b"] rfl rfl (by decide) rfl rfl

/-- C6: with query `""` the search filter yields no matches — the
`draw_screen` view-model reports `total_matches = none` and falls back to
the normal cache slice, because search is only active for non-empty
queries and the caller branches on query emptiness before filtering. -/
theorem empty_query_no_matches (allNotes : List Note)
    (offset searchOffset limit : Nat) :
    display_notes allNotes offset searchOffset limit "" =
      (slice_notes allNotes offset (min (offset + limit) allNotes.length),
        offset / max limit 1 + 1, none) := by
  simp [display_notes]

/-- C7: the Left-key handler in normal mode never issues a remote fetch
for any offset > 0 — it only subtracts `limit` from the offset (saturating
at 0) and its fetch log is empty. -/
theorem retreat_no_fetch (client : Nat → Nat → Except String (List Note))
    (fuel : Nat) (st : AppState)
    (hq : st.searchQuery = "") (hm : st.inputMode = InputMode.Normal)
    (ho : 0 < st.offset) :
    handle_key client fuel KeyEv.leftKey st =
      (some { st with offset := st.offset - st.limit }, []) := by
  have h1 : handle_key client fuel KeyEv.leftKey st = left_handler st := rfl
  rw [h1]
  unfold left_handler
  rw [if_neg (by rw [hq]; simp), if_pos ⟨hm, ho⟩]

/-- Witness for C7: a concrete retreat from offset 5 with limit 2. -/
theorem retreat_no_fetch_witness :
    handle_key (fun _ _ => Except.ok []) 0 KeyEv.leftKey
      { offset := 5, allNotes := [], cacheSize := 0,
        cacheLimitBytes := 1000, errorMsg := none, totalFetched := 0,
        inputMode := InputMode.Normal, searchQuery := "", searchOffset := 0,
        limit := 2, isFetchingAll := false } =
      (some { offset := 3, allNotes := [], cacheSize := 0,
              cacheLimitBytes := 1000, errorMsg := none, totalFetched := 0,
              inputMode := InputMode.Normal, searchQuery := "",
              searchOffset := 0, limit := 2, isFetchingAll := false }, []) :=
  retreat_no_fetch (fun _ _ => Except.ok []) 0
    { offset := 5, allNotes := [], cacheSize := 0,
      cacheLimitBytes := 1000, errorMsg := none, totalFetched := 0,
      inputMode := InputMode.Normal, searchQuery := "", searchOffset := 0,
      limit := 2, isFetchingAll := false } rfl rfl (by decide)

/-- C8: a terminal resize changes only the page limit — recomputed from
the terminal rows and clamped to `[1, 50]` — leaving offset, search
offset, search query, cached notes and cache byte total unchanged, and
triggers no remote fetch (empty fetch log). -/
theorem resize_changes_only_limit
    (client : Nat → Nat → Except String (List Note)) (fuel height : Nat)
    (st : AppState) :
    handle_event client fuel (TuiEvent.resize height) st =
      (some { st with limit := calculate_limit height }, [])
    ∧ 1 ≤ calculate_limit height ∧ calculate_limit height ≤ 50 :=
  ⟨rfl,
    Nat.le_min.mpr ⟨Nat.le_max_right _ _, by norm_num⟩,
    Nat.min_le_right _ _⟩

/-- C9: every search-query text change — appending a character or deleting
one via backspace while in Search mode — resets the search result offset
to 0, for every prior value of the search offset. -/
theorem query_edit_resets_search_offset
    (client : Nat → Nat → Except String (List Note)) (fuel : Nat)
    (st : AppState) (c : Char) (ctrl : Bool)
    (hm : st.inputMode = InputMode.Search) :
    (handle_key client fuel (KeyEv.charKey c ctrl) st).1 =
      some { st with searchQuery := st.searchQuery.push c,
                     searchOffset := 0 }
    ∧ (handle_key client fuel KeyEv.backspaceKey st).1 =
      some { st with searchQuery := st.searchQuery.dropRight 1,
                     searchOffset := 0 } := by
  constructor
  · simp [handle_key, hm]
  · simp [handle_key, hm]

/-- Witness for C9: typing `x` at search offset 7 resets the offset. -/
theorem query_edit_resets_search_offset_witness :
    (handle_key (fun _ _ => Except.ok []) 0 (KeyEv.charKey 'x' false)
      { offset := 0, allNotes := [], cacheSize := 0,
        cacheLimitBytes := 1000, errorMsg := none, totalFetched := 0,
        inputMode := InputMode.Search, searchQuery := "ab",
        searchOffset := 7, limit := 2, isFetchingAll := false }).1 =
      some { offset := 0, allNotes := [], cacheSize := 0,
             cacheLimitBytes := 1000, errorMsg := none, totalFetched := 0,
             inputMode := InputMode.Search, searchQuery := "abx",
             searchOffset := 0, limit := 2, isFetchingAll := false } :=
  ((query_edit_resets_search_offset (fun _ _ => Except.ok []) 0
    { offset := 0, allNotes := [], cacheSize := 0,
      cacheLimitBytes := 1000, errorMsg := none, totalFetched := 0,
      inputMode := InputMode.Search, searchQuery := "ab",
      searchOffset := 7, limit := 2, isFetchingAll := false } 'x' false
    rfl).1).trans (by rfl)
